import Mathlib

/-!
Verification of the REMODE publisher core (src/src/publisher.cpp).

The development shallowly embeds the three operations of the publisher:
the uncolored point-cloud projection (publishPointCloud), the colored and
mask-gated projection (publishPointCloudRGB), and the convergence-map
rendering (publishConvergenceMap).

Modelling decisions:
- Image grids (cv::Mat) are total functions from row and column indices,
  paired with the shared dimensions of the snapshot; the spec invariant is
  that all grids of one snapshot share identical dimensions.
- float arithmetic is modelled over the rationals; the square root inside
  the ray normalization is modelled with Rat.sqrt.  Every verified claim
  concerns gating, counting, ordering, packing, or container state, and is
  independent of the numeric values of the projected coordinates.
- The 32-bit reinterpretation of the packed color (reinterpret_cast from
  uint32_t to float) is bit-for-bit; the model carries the 32-bit pattern
  itself as the stored color attribute of a colored point.
- The C++ publisher object holds the two point-cloud containers and the
  colored image as members that persist across calls; the model passes
  this state explicitly (PubSystem).  Each operation returns the new state
  and the data handed to the transport layer (an Option: none when the
  empty-container check suppresses publication).
-/

namespace Remode

/-- Vec3b models cv::Vec3b, an interleaved 3-channel byte pixel in B,G,R
channel order: channel 0 is blue, channel 1 green, channel 2 red. -/
structure Vec3b where
  c0 : Nat
  c1 : Nat
  c2 : Nat
deriving DecidableEq

/-- Float3 models the CUDA float3 vector, with float arithmetic modelled
over the rationals. -/
structure Float3 where
  x : ℚ
  y : ℚ
  z : ℚ
deriving DecidableEq

/-- Dot product of two float3 vectors. -/
def dot3 (a b : Float3) : ℚ := a.x * b.x + a.y * b.y + a.z * b.z

/-- Length of a float3 vector, with sqrt modelled by Rat.sqrt. -/
def norm3 (v : Float3) : ℚ := Rat.sqrt (dot3 v v)

/-- CUDA normalize on float3: divide each component by the length. -/
def normalize3 (v : Float3) : Float3 :=
  ⟨v.x / norm3 v, v.y / norm3 v, v.z / norm3 v⟩

/-- CUDA float3 times scalar, componentwise. -/
def smul3 (v : Float3) (c : ℚ) : Float3 := ⟨v.x * c, v.y * c, v.z * c⟩

/-- SE3 models rmd::SE3 of float: a rigid transform given by a rotation
matrix (rows rxx..rzz) and a translation (tx, ty, tz). -/
structure SE3 where
  rxx : ℚ
  rxy : ℚ
  rxz : ℚ
  ryx : ℚ
  ryy : ℚ
  ryz : ℚ
  rzx : ℚ
  rzy : ℚ
  rzz : ℚ
  tx : ℚ
  ty : ℚ
  tz : ℚ
deriving DecidableEq

/-- Application of a rigid transform to a vector: rotate then translate. -/
def se3Apply (T : SE3) (v : Float3) : Float3 :=
  ⟨T.rxx * v.x + T.rxy * v.y + T.rxz * v.z + T.tx,
   T.ryx * v.x + T.ryy * v.y + T.ryz * v.z + T.ty,
   T.rzx * v.x + T.rzy * v.y + T.rzz * v.z + T.tz⟩

/-- Modelled from the spec: the ConvergenceState enum declaration is not
under src (publisher.cpp only compares against its constants); the spec
requires at least CONVERGED and DIVERGED as distinguished states, other
values being treated uniformly as pending or excluded.  The convergence
map stores plain int values; two distinct integer codes stand for the two
distinguished states. -/
def CONVERGED : Int := 1

/-- Modelled from the spec: the DIVERGED code of the ConvergenceState
enum, distinct from CONVERGED (see CONVERGED). -/
def DIVERGED : Int := 2

/-- Img models a cv::Mat: dimensions plus a total per-pixel function,
indexed row-then-column. -/
structure Img (α : Type) where
  rows : Nat
  cols : Nat
  pix : Nat → Nat → α

/-- Snapshot models the consistent state read from the Depthmap object
under its reference-image mutex: the depth map, convergence map, grayscale
and color reference images, validity mask, world pose, and pinhole
intrinsics.  All grids share the dimensions rows and cols. -/
structure Snapshot where
  rows : Nat
  cols : Nat
  depth : Nat → Nat → ℚ
  convergence : Nat → Nat → Int
  ref_img : Nat → Nat → Nat
  ref_img_rgb : Nat → Nat → Vec3b
  ref_mask : Nat → Nat → Nat
  T_world_ref : SE3
  fx : ℚ
  fy : ℚ
  cx : ℚ
  cy : ℚ

/-- PointType models pcl PointXYZI: world position plus the grayscale
intensity copied from the reference image. -/
structure PointType where
  x : ℚ
  y : ℚ
  z : ℚ
  intensity : Nat
deriving DecidableEq

/-- PointTypeRGB models pcl PointXYZRGB: world position plus the packed
color.  The rgb field of the C++ point is float-typed but filled by a
bit-for-bit reinterpretation of the packed 32-bit integer; the model
carries that 32-bit pattern. -/
structure PointTypeRGB where
  x : ℚ
  y : ℚ
  z : ℚ
  rgb : Nat
deriving DecidableEq

/-- Per-pixel normalized camera ray, publisher.cpp line 75 and line 132:
normalize(make_float3((x-cx)/fx, (y-cy)/fy, 1.0f)). -/
def pixelRay (s : Snapshot) (x y : Nat) : Float3 :=
  normalize3 ⟨((x : ℚ) - s.cx) / s.fx, ((y : ℚ) - s.cy) / s.fy, 1⟩

/-- Per-pixel world point, publisher.cpp line 76 and line 133:
T_world_ref * (f * depth.at(y, x)). -/
def pixelXYZ (s : Snapshot) (x y : Nat) : Float3 :=
  se3Apply s.T_world_ref (smul3 (pixelRay s x y) (s.depth y x))

/-- Point appended for a surviving pixel of the uncolored projection,
publisher.cpp lines 79-84: the world position and the grayscale intensity
at the pixel. -/
def mkPointType (s : Snapshot) (x y : Nat) : PointType :=
  ⟨(pixelXYZ s x y).x, (pixelXYZ s x y).y, (pixelXYZ s x y).z, s.ref_img y x⟩

/-- Color packing of publisher.cpp line 145: the three channels are read
in B,G,R source order (indices 0,1,2 of the Vec3b) and repacked with R in
the high byte, G in the middle byte, B in the low byte. -/
def packRGB (c : Vec3b) : Nat := ((c.c2 <<< 16) ||| (c.c1 <<< 8)) ||| c.c0

/-- Inverse of the documented packing rule: high byte of the low 24 bits. -/
def unpackR (v : Nat) : Nat := (v >>> 16) &&& 255

/-- Inverse of the documented packing rule: middle byte. -/
def unpackG (v : Nat) : Nat := (v >>> 8) &&& 255

/-- Inverse of the documented packing rule: low byte. -/
def unpackB (v : Nat) : Nat := v &&& 255

/-- Point appended for a surviving pixel of the colored projection,
publisher.cpp lines 137-147: the world position and the packed color
pattern stored in the float-typed rgb slot. -/
def mkPointTypeRGB (s : Snapshot) (x y : Nat) : PointTypeRGB :=
  ⟨(pixelXYZ s x y).x, (pixelXYZ s x y).y, (pixelXYZ s x y).z,
   packRGB (s.ref_img_rgb y x)⟩

/-- Points appended by one call of publishPointCloud, publisher.cpp lines
71-88: a raster scan (outer loop over rows, inner loop over columns) that
appends a point exactly when the pixel state is CONVERGED.  The source
computes the world point before testing the gate; both are pure, so the
model places the construction inside the branch. -/
def pointCloudPoints (s : Snapshot) : List PointType :=
  (List.range s.rows).flatMap fun y =>
    (List.range s.cols).flatMap fun x =>
      if s.convergence y x = CONVERGED then [mkPointType s x y] else []

/-- Points appended by one call of publishPointCloudRGB, publisher.cpp
lines 128-150: the raster scan appends a point exactly when the pixel
state is CONVERGED and the validity-mask value equals 1 (line 135). -/
def pointCloudRGBPoints (s : Snapshot) : List PointTypeRGB :=
  (List.range s.rows).flatMap fun y =>
    (List.range s.cols).flatMap fun x =>
      if s.convergence y x = CONVERGED ∧ s.ref_mask y x = 1 then
        [mkPointTypeRGB s x y]
      else []

/-- Modelled from the spec: publisher.cpp always reads a validity mask
through getReferenceMask, and the absent-mask behavior lives outside src;
per the spec, an absent mask is treated as always-valid, so the gate is
the convergence test alone. -/
def pointCloudRGBPointsNoMask (s : Snapshot) : List PointTypeRGB :=
  (List.range s.rows).flatMap fun y =>
    (List.range s.cols).flatMap fun x =>
      if s.convergence y x = CONVERGED then [mkPointTypeRGB s x y] else []

/-- Raster-scan enumeration of the pixel coordinates (row, column) of a
rows-by-cols image, in the order the publisher loops visit them. -/
def rasterPixels (rows cols : Nat) : List (Nat × Nat) :=
  (List.range rows).flatMap fun y => (List.range cols).map fun x => (y, x)

/-- Pixels passing the gate of the uncolored projection, in raster order. -/
def convergedPixels (s : Snapshot) : List (Nat × Nat) :=
  (rasterPixels s.rows s.cols).filter fun p =>
    decide (s.convergence p.1 p.2 = CONVERGED)

/-- Pixels passing the gate of the colored projection, in raster order. -/
def convergedMaskedPixels (s : Snapshot) : List (Nat × Nat) :=
  (rasterPixels s.rows s.cols).filter fun p =>
    decide (s.convergence p.1 p.2 = CONVERGED ∧ s.ref_mask p.1 p.2 = 1)

/-- Number of pixels whose convergence state is CONVERGED. -/
def convergedCount (s : Snapshot) : Nat := (convergedPixels s).length

/-- Number of pixels that are CONVERGED and whose mask value is 1. -/
def convergedMaskedCount (s : Snapshot) : Nat := (convergedMaskedPixels s).length

/-- Per-pixel rendering of publishConvergenceMap, publisher.cpp lines
186-201: cvtColor replicates the grayscale value into the three channels,
then the switch forces channel 0 to 255 on CONVERGED and channel 2 to 255
on DIVERGED, leaving other states untouched. -/
def renderPixel (cvg : Int) (g : Nat) : Vec3b :=
  if cvg = CONVERGED then ⟨255, g, g⟩
  else if cvg = DIVERGED then ⟨g, g, 255⟩
  else ⟨g, g, g⟩

/-- Image computed by publishConvergenceMap, publisher.cpp lines 183-203:
the dimensions are those of the reference image and the per-pixel value is
renderPixel of the convergence state and the grayscale value. -/
def renderConvergence (s : Snapshot) : Img Vec3b :=
  ⟨s.rows, s.cols, fun r c => renderPixel (s.convergence r c) (s.ref_img r c)⟩

/-- Publisher models the persistent members of rmd::Publisher: the two
point-cloud containers pc_ and pc_rgb_ allocated once in the constructor
(publisher.cpp lines 30-31) and the colored image member (line 34). -/
structure Publisher where
  pc : List PointType
  pc_rgb : List PointTypeRGB
  colored : Img Vec3b

/-- PubSystem is the state an operation acts on: the snapshot reachable
through the depthmap member, and the persistent publisher members. -/
structure PubSystem where
  depthmap : Snapshot
  pub : Publisher

/-- Publisher state right after the constructor, publisher.cpp lines
27-40: both containers empty, the colored member allocated with the
depthmap dimensions and uninitialized contents (the init argument). -/
def mkPublisher (s : Snapshot) (init : Nat → Nat → Vec3b) : Publisher :=
  ⟨[], [], ⟨s.rows, s.cols, init⟩⟩

/-- One call of rmd::Publisher::publishPointCloud, publisher.cpp lines
56-106: append the surviving points of the snapshot to the persistent
container pc_, then hand the whole container to transport unless it is
empty (line 90). -/
def publishPointCloud (st : PubSystem) : PubSystem × Option (List PointType) :=
  let pc2 := st.pub.pc ++ pointCloudPoints st.depthmap
  ({ st with pub := { st.pub with pc := pc2 } },
   if pc2.isEmpty then none else some pc2)

/-- One call of rmd::Publisher::publishPointCloudRGB, publisher.cpp lines
110-169: append the surviving colored points to the persistent container
pc_rgb_ (the clear of line 126 is commented out), then hand the whole
container to transport unless it is empty (line 153). -/
def publishPointCloudRGB (st : PubSystem) : PubSystem × Option (List PointTypeRGB) :=
  let pc2 := st.pub.pc_rgb ++ pointCloudRGBPoints st.depthmap
  ({ st with pub := { st.pub with pc_rgb := pc2 } },
   if pc2.isEmpty then none else some pc2)

/-- One call of rmd::Publisher::publishConvergenceMap, publisher.cpp lines
179-214: overwrite the colored member with the rendered image (cvtColor
reallocates it to the reference-image dimensions) and hand that image to
transport. -/
def publishConvergenceMap (st : PubSystem) : PubSystem × Img Vec3b :=
  let img := renderConvergence st.depthmap
  ({ st with pub := { st.pub with colored := img } }, img)

/-! Helper lemmas: the nested publisher loops produce exactly the map of
the point constructor over the raster-ordered list of gate-passing
pixels. -/

/-- Appending a singleton under a decidable test equals filtering then
mapping. -/
theorem flatMap_ite_singleton {α β : Type} (l : List α) (p : α → Prop)
    [DecidablePred p] (f : α → β) :
    (l.flatMap fun a => if p a then [f a] else [])
      = (l.filter fun a => decide (p a)).map f := by
  induction l with
  | nil => rfl
  | cons a l ih =>
    rw [List.flatMap_cons, List.filter_cons, ih]
    by_cases h : p a <;> simp [h]

/-- Flattening the two publisher loops into one loop over rasterPixels. -/
theorem flatMap_raster {β : Type} (rows cols : Nat) (g : Nat → Nat → List β) :
    ((List.range rows).flatMap fun y => (List.range cols).flatMap fun x => g y x)
      = (rasterPixels rows cols).flatMap fun q => g q.1 q.2 := by
  rw [rasterPixels, List.flatMap_assoc]
  simp only [List.flatMap_map]

/-- Membership in the raster enumeration is exactly being in bounds. -/
theorem mem_rasterPixels {rows cols : Nat} {q : Nat × Nat} :
    q ∈ rasterPixels rows cols ↔ q.1 < rows ∧ q.2 < cols := by
  cases q with
  | mk y x =>
    simp only [rasterPixels, List.mem_flatMap, List.mem_map, List.mem_range]
    constructor
    · rintro ⟨a, ha, b, hb, hq⟩
      cases hq
      exact ⟨ha, hb⟩
    · rintro ⟨hy, hx⟩
      exact ⟨y, hy, x, hx, rfl⟩

/-- Characterization of the uncolored batch: the map of the point
constructor over the gate-passing pixels in raster order. -/
theorem pointCloudPoints_eq (s : Snapshot) :
    pointCloudPoints s
      = (convergedPixels s).map fun q => mkPointType s q.2 q.1 := by
  rw [pointCloudPoints, flatMap_raster, convergedPixels,
    ← flatMap_ite_singleton (rasterPixels s.rows s.cols)
      (fun q => s.convergence q.1 q.2 = CONVERGED)
      (fun q => mkPointType s q.2 q.1)]

/-- Characterization of the colored batch: the map of the colored point
constructor over the pixels passing the convergence and mask gates. -/
theorem pointCloudRGBPoints_eq (s : Snapshot) :
    pointCloudRGBPoints s
      = (convergedMaskedPixels s).map fun q => mkPointTypeRGB s q.2 q.1 := by
  rw [pointCloudRGBPoints, flatMap_raster, convergedMaskedPixels,
    ← flatMap_ite_singleton (rasterPixels s.rows s.cols)
      (fun q => s.convergence q.1 q.2 = CONVERGED ∧ s.ref_mask q.1 q.2 = 1)
      (fun q => mkPointTypeRGB s q.2 q.1)]

/-- Characterization of the spec-modelled maskless colored batch. -/
theorem pointCloudRGBPointsNoMask_eq (s : Snapshot) :
    pointCloudRGBPointsNoMask s
      = (convergedPixels s).map fun q => mkPointTypeRGB s q.2 q.1 := by
  rw [pointCloudRGBPointsNoMask, flatMap_raster, convergedPixels,
    ← flatMap_ite_singleton (rasterPixels s.rows s.cols)
      (fun q => s.convergence q.1 q.2 = CONVERGED)
      (fun q => mkPointTypeRGB s q.2 q.1)]

/-! Concrete snapshots used by witnesses and counterexamples. -/

/-- Identity pose: identity rotation, zero translation. -/
def idSE3 : SE3 := ⟨1, 0, 0, 0, 1, 0, 0, 0, 1, 0, 0, 0⟩

/-- One-pixel snapshot whose only pixel is CONVERGED and mask-valid. -/
def snapOneConverged : Snapshot where
  rows := 1
  cols := 1
  depth := fun _ _ => 5
  convergence := fun _ _ => CONVERGED
  ref_img := fun _ _ => 7
  ref_img_rgb := fun _ _ => ⟨30, 20, 10⟩
  ref_mask := fun _ _ => 1
  T_world_ref := idSE3
  fx := 1
  fy := 1
  cx := 0
  cy := 0

/-- System state right after construction over snapOneConverged. -/
def pubSystem0 : PubSystem :=
  ⟨snapOneConverged, mkPublisher snapOneConverged fun _ _ => ⟨0, 0, 0⟩⟩

/-- Claim C2: for every snapshot, the uncolored projection produces
exactly one point per CONVERGED pixel: the point count equals the
CONVERGED pixel count, the batch is the image of the point constructor
over the surviving pixels taken in raster-scan order, and every surviving
pixel is CONVERGED. -/
theorem pointCloudPoints_count_origin_order (s : Snapshot) :
    (pointCloudPoints s).length = convergedCount s ∧
    (pointCloudPoints s = (convergedPixels s).map fun q => mkPointType s q.2 q.1) ∧
    ∀ q ∈ convergedPixels s, s.convergence q.1 q.2 = CONVERGED := by
  refine ⟨?_, pointCloudPoints_eq s, ?_⟩
  · rw [pointCloudPoints_eq, convergedCount, List.length_map]
  · intro q hq
    simp only [convergedPixels, List.mem_filter, decide_eq_true_eq] at hq
    exact hq.2

/-- Claim C3: the colored projection produces exactly one point per pixel
that is CONVERGED with mask value 1; the spec-modelled absent-mask variant
produces one point per CONVERGED pixel and coincides with the masked
projection run on an all-ones mask. -/
theorem pointCloudRGBPoints_count (s : Snapshot) :
    (pointCloudRGBPoints s).length = convergedMaskedCount s ∧
    (pointCloudRGBPointsNoMask s).length = convergedCount s ∧
    pointCloudRGBPointsNoMask s
      = pointCloudRGBPoints { s with ref_mask := fun _ _ => 1 } := by
  refine ⟨?_, ?_, ?_⟩
  · rw [pointCloudRGBPoints_eq, convergedMaskedCount, List.length_map]
  · rw [pointCloudRGBPointsNoMask_eq, convergedCount, List.length_map]
  · rw [pointCloudRGBPointsNoMask, pointCloudRGBPoints]
    simp [mkPointTypeRGB, pixelXYZ, pixelRay]

/-- Claim C7: none of the three operations changes the snapshot: the
depth map, convergence map, reference images, validity mask, pose and
intrinsics reachable through the depthmap member are identical before and
after each call. -/
theorem operations_preserve_snapshot (st : PubSystem) :
    (publishPointCloud st).1.depthmap = st.depthmap ∧
    (publishPointCloudRGB st).1.depthmap = st.depthmap ∧
    (publishConvergenceMap st).1.depthmap = st.depthmap :=
  ⟨rfl, rfl, rfl⟩

/-- Claim C8: the two point containers are persistent state that each
projection call extends with its surviving points and never clears: after
publishPointCloud the pc container equals its previous contents followed
by the new batch while pc_rgb is untouched, symmetrically for
publishPointCloudRGB, and publishConvergenceMap touches neither. -/
theorem projection_calls_append_only (st : PubSystem) :
    (publishPointCloud st).1.pub.pc
      = st.pub.pc ++ pointCloudPoints st.depthmap ∧
    (publishPointCloud st).1.pub.pc_rgb = st.pub.pc_rgb ∧
    (publishPointCloudRGB st).1.pub.pc_rgb
      = st.pub.pc_rgb ++ pointCloudRGBPoints st.depthmap ∧
    (publishPointCloudRGB st).1.pub.pc = st.pub.pc ∧
    (publishConvergenceMap st).1.pub.pc = st.pub.pc ∧
    (publishConvergenceMap st).1.pub.pc_rgb = st.pub.pc_rgb :=
  ⟨rfl, rfl, rfl, rfl, rfl, rfl⟩

/-- Claim C1 (counterexample): on a one-pixel converged snapshot and a
freshly constructed publisher, the data handed to transport by a second
publishPointCloud call differs from that of the first call, because the
persistent container has accumulated the first batch. -/
theorem publishPointCloud_twice_not_idempotent :
    (publishPointCloud pubSystem0).2
      ≠ (publishPointCloud (publishPointCloud pubSystem0).1).2 := by
  intro h
  have e1 : (((publishPointCloud pubSystem0).2).getD []).length = 1 := rfl
  have e2 : (((publishPointCloud (publishPointCloud pubSystem0).1).2).getD []).length = 2 :=
    rfl
  rw [h, e2] at e1
  exact absurd e1 (by decide)

/-- Claim C1 (amended): the convergence rendering is idempotent, handing
bit-identical images to transport on repeated calls over an unmodified
snapshot; each projection call appends an identical batch for the same
snapshot, but because the containers persist across calls the container
contents after two calls hold the batch twice, so the projection outputs
of the two calls are not bit-identical. -/
theorem publish_repeat_amended (st : PubSystem) :
    (publishConvergenceMap st).2
      = (publishConvergenceMap (publishConvergenceMap st).1).2 ∧
    (publishPointCloud (publishPointCloud st).1).1.pub.pc
      = st.pub.pc ++ pointCloudPoints st.depthmap
          ++ pointCloudPoints st.depthmap ∧
    (publishPointCloudRGB (publishPointCloudRGB st).1).1.pub.pc_rgb
      = st.pub.pc_rgb ++ pointCloudRGBPoints st.depthmap
          ++ pointCloudRGBPoints st.depthmap :=
  ⟨rfl, rfl, rfl⟩

/-- Packing as place-value arithmetic: with byte-sized G and B channels
the bitwise composition of line 145 is R*65536 + G*256 + B. -/
theorem packRGB_eq_add (c : Vec3b) (h0 : c.c0 < 256) (h1 : c.c1 < 256) :
    packRGB c = c.c2 * 65536 + c.c1 * 256 + c.c0 := by
  have hb : c.c1 * 2 ^ 8 < 2 ^ 16 := by omega
  have hc : c.c0 < 2 ^ 8 := by omega
  have A : c.c2 * 2 ^ 16 ||| c.c1 * 2 ^ 8 = c.c2 * 2 ^ 16 + c.c1 * 2 ^ 8 := by
    have h := Nat.mul_add_lt_is_or hb c.c2
    rw [Nat.mul_comm (2 ^ 16) c.c2] at h
    exact h.symm
  have B : (c.c2 * 2 ^ 16 + c.c1 * 2 ^ 8) ||| c.c0
      = c.c2 * 2 ^ 16 + c.c1 * 2 ^ 8 + c.c0 := by
    have h := Nat.mul_add_lt_is_or hc (2 ^ 8 * c.c2 + c.c1)
    have h2 : 2 ^ 8 * (2 ^ 8 * c.c2 + c.c1) = c.c2 * 2 ^ 16 + c.c1 * 2 ^ 8 := by ring
    rw [h2] at h
    exact h.symm
  rw [packRGB, Nat.shiftLeft_eq, Nat.shiftLeft_eq, A, B]
  ring

/-- Claim C4: the packed color composes the channels read in B,G,R source
order into a 24-bit value with R in the high byte, G in the middle byte
and B in the low byte; unpacking that bit pattern by the inverse rule
recovers each channel exactly, the pattern fits in 24 bits (so the 32-bit
reinterpretation is lossless), and the colored point stores exactly this
pattern in its float-typed rgb slot. -/
theorem packRGB_roundtrip (c : Vec3b) (h0 : c.c0 < 256) (h1 : c.c1 < 256)
    (h2 : c.c2 < 256) :
    unpackR (packRGB c) = c.c2 ∧ unpackG (packRGB c) = c.c1 ∧
    unpackB (packRGB c) = c.c0 ∧ packRGB c < 2 ^ 24 ∧
    ∀ (s : Snapshot) (x y : Nat),
      (mkPointTypeRGB s x y).rgb = packRGB (s.ref_img_rgb y x) := by
  have e255 : (255 : Nat) = 2 ^ 8 - 1 := rfl
  rw [packRGB_eq_add c h0 h1, unpackR, unpackG, unpackB,
    Nat.shiftRight_eq_div_pow, Nat.shiftRight_eq_div_pow, e255,
    Nat.and_pow_two_sub_one_eq_mod, Nat.and_pow_two_sub_one_eq_mod,
    Nat.and_pow_two_sub_one_eq_mod]
  refine ⟨?_, ?_, ?_, ?_, fun s x y => rfl⟩ <;> omega

/-- Witness for claim C4: the spec color (R=10, G=20, B=30), read from
the source in B,G,R order as the triple (30, 20, 10), round-trips to
exactly (10, 20, 30). -/
theorem packRGB_roundtrip_witness :
    (30 : Nat) < 256 ∧ (20 : Nat) < 256 ∧ (10 : Nat) < 256 ∧
    unpackR (packRGB ⟨30, 20, 10⟩) = 10 ∧
    unpackG (packRGB ⟨30, 20, 10⟩) = 20 ∧
    unpackB (packRGB ⟨30, 20, 10⟩) = 30 :=
  ⟨by decide, by decide, by decide,
   (packRGB_roundtrip ⟨30, 20, 10⟩ (by decide) (by decide) (by decide)).1,
   (packRGB_roundtrip ⟨30, 20, 10⟩ (by decide) (by decide) (by decide)).2.1,
   (packRGB_roundtrip ⟨30, 20, 10⟩ (by decide) (by decide) (by decide)).2.2.1⟩

/-- Claim C5: in the rendered convergence image every in-bounds pixel
satisfies: a CONVERGED pixel has channel 0 equal to 255 whatever its
grayscale value, a DIVERGED pixel has channel 2 equal to 255, a pixel in
any other state carries the grayscale value replicated across the three
channels, and the output dimensions equal the input dimensions. -/
theorem renderConvergence_pixel_spec (s : Snapshot) (y x : Nat)
    (_hy : y < s.rows) (_hx : x < s.cols) :
    (s.convergence y x = CONVERGED →
      ((renderConvergence s).pix y x).c0 = 255) ∧
    (s.convergence y x = DIVERGED →
      ((renderConvergence s).pix y x).c2 = 255) ∧
    (s.convergence y x ≠ CONVERGED → s.convergence y x ≠ DIVERGED →
      (renderConvergence s).pix y x
        = ⟨s.ref_img y x, s.ref_img y x, s.ref_img y x⟩) ∧
    (renderConvergence s).rows = s.rows ∧
    (renderConvergence s).cols = s.cols := by
  refine ⟨?_, ?_, ?_, rfl, rfl⟩
  · intro h
    simp [renderConvergence, renderPixel, h]
  · intro h
    have hne : s.convergence y x ≠ CONVERGED := by
      rw [h]
      decide
    simp [renderConvergence, renderPixel, h, hne, CONVERGED, DIVERGED]
  · intro h1 h2
    simp [renderConvergence, renderPixel, h1, h2]

/-- Witness for claim C5: on the one-pixel converged snapshot the blue
channel of the rendered pixel is forced to 255 even though the grayscale
value is 7. -/
theorem renderConvergence_pixel_spec_witness :
    0 < snapOneConverged.rows ∧ 0 < snapOneConverged.cols ∧
    snapOneConverged.ref_img 0 0 = 7 ∧
    ((renderConvergence snapOneConverged).pix 0 0).c0 = 255 :=
  ⟨by decide, by decide, by decide,
   (renderConvergence_pixel_spec snapOneConverged 0 0 (by decide)
      (by decide)).1 (by decide)⟩

/-- Claim C9: the colored projection admits a pixel only when its mask
value is exactly 1: a pixel with any other mask value is not among the
surviving pixels, of which the produced batch is the image under the
point constructor. -/
theorem rgb_mask_strict_gate (s : Snapshot) (y x : Nat)
    (h : s.ref_mask y x ≠ 1) :
    (y, x) ∉ convergedMaskedPixels s ∧
    pointCloudRGBPoints s
      = (convergedMaskedPixels s).map fun q => mkPointTypeRGB s q.2 q.1 := by
  refine ⟨?_, pointCloudRGBPoints_eq s⟩
  intro hmem
  simp only [convergedMaskedPixels, List.mem_filter, decide_eq_true_eq] at hmem
  exact h hmem.2.2

/-- One-pixel snapshot whose pixel is CONVERGED but carries the nonzero
mask value 255 rather than 1. -/
def snapMask255 : Snapshot := { snapOneConverged with ref_mask := fun _ _ => 255 }

/-- Witness for claim C9: with mask value 255 the CONVERGED pixel is
gated out and the colored batch is empty. -/
theorem rgb_mask_strict_gate_witness :
    snapMask255.ref_mask 0 0 ≠ 1 ∧
    snapMask255.convergence 0 0 = CONVERGED ∧
    (0, 0) ∉ convergedMaskedPixels snapMask255 ∧
    pointCloudRGBPoints snapMask255 = [] :=
  ⟨by decide, by decide, (rgb_mask_strict_gate snapMask255 0 0 (by decide)).1, rfl⟩

/-- When no pixel is CONVERGED both survivor lists are empty. -/
theorem survivors_nil_of_no_converged (s : Snapshot)
    (hnc : ∀ y < s.rows, ∀ x < s.cols, s.convergence y x ≠ CONVERGED) :
    convergedPixels s = [] ∧ convergedMaskedPixels s = [] := by
  constructor
  · apply List.filter_eq_nil_iff.2
    intro q hq
    have hb := mem_rasterPixels.1 hq
    simp only [decide_eq_true_eq]
    exact hnc q.1 hb.1 q.2 hb.2
  · apply List.filter_eq_nil_iff.2
    intro q hq
    have hb := mem_rasterPixels.1 hq
    simp only [decide_eq_true_eq]
    rintro ⟨hcv, -⟩
    exact hnc q.1 hb.1 q.2 hb.2 hcv

/-- One-pixel snapshot whose pixel is DIVERGED, grayscale value 7. -/
def snapDiverged : Snapshot := { snapOneConverged with convergence := fun _ _ => DIVERGED }

/-- One-pixel snapshot whose pixel is in a pending state (neither
CONVERGED nor DIVERGED), grayscale value 9. -/
def snapPending : Snapshot :=
  { snapOneConverged with convergence := (fun _ _ => 0), ref_img := (fun _ _ => 9) }

/-- Claim C6 (counterexample): the all-non-converged snapshot whose only
pixel is DIVERGED renders to a pixel that is not the grayscale value
replicated into three channels, since channel 2 is forced to 255. -/
theorem all_nonconverged_render_not_gray :
    (∀ y < snapDiverged.rows, ∀ x < snapDiverged.cols,
      snapDiverged.convergence y x ≠ CONVERGED) ∧
    (renderConvergence snapDiverged).pix 0 0
      ≠ ⟨snapDiverged.ref_img 0 0, snapDiverged.ref_img 0 0,
         snapDiverged.ref_img 0 0⟩ := by
  decide

/-- Claim C6 (amended): when no pixel is CONVERGED both projections
produce an empty batch and, from a freshly constructed publisher, hand
nothing to transport — a silent skip, there being no failure value at
all; the rendered image carries the replicated grayscale value at every
pixel that is also not DIVERGED, while a DIVERGED pixel keeps its
grayscale value on channels 0 and 1 with channel 2 forced to 255. -/
theorem all_nonconverged_outcome (s : Snapshot) (init : Nat → Nat → Vec3b)
    (hnc : ∀ y < s.rows, ∀ x < s.cols, s.convergence y x ≠ CONVERGED) :
    pointCloudPoints s = [] ∧ pointCloudRGBPoints s = [] ∧
    (publishPointCloud ⟨s, mkPublisher s init⟩).2 = none ∧
    (publishPointCloudRGB ⟨s, mkPublisher s init⟩).2 = none ∧
    ∀ y < s.rows, ∀ x < s.cols,
      (s.convergence y x ≠ DIVERGED →
        (renderConvergence s).pix y x
          = ⟨s.ref_img y x, s.ref_img y x, s.ref_img y x⟩) ∧
      (s.convergence y x = DIVERGED →
        (renderConvergence s).pix y x
          = ⟨s.ref_img y x, s.ref_img y x, 255⟩) := by
  obtain ⟨hs1, hs2⟩ := survivors_nil_of_no_converged s hnc
  have h1 : pointCloudPoints s = [] := by
    rw [pointCloudPoints_eq, hs1]
    rfl
  have h2 : pointCloudRGBPoints s = [] := by
    rw [pointCloudRGBPoints_eq, hs2]
    rfl
  refine ⟨h1, h2, ?_, ?_, ?_⟩
  · simp [publishPointCloud, mkPublisher, h1]
  · simp [publishPointCloudRGB, mkPublisher, h2]
  · intro y hy x hx
    have hcv := hnc y hy x hx
    constructor
    · intro hdv
      simp [renderConvergence, renderPixel, hcv, hdv]
    · intro hdv
      simp [renderConvergence, renderPixel, hcv, hdv, CONVERGED, DIVERGED]

/-- Witness for claim C6 (amended): a one-pixel pending snapshot yields
empty batches, publishes nothing, and renders to the replicated grayscale
value 9. -/
theorem all_nonconverged_outcome_witness :
    (∀ y < snapPending.rows, ∀ x < snapPending.cols,
      snapPending.convergence y x ≠ CONVERGED) ∧
    pointCloudPoints snapPending = [] ∧
    pointCloudRGBPoints snapPending = [] ∧
    (publishPointCloud ⟨snapPending, mkPublisher snapPending fun _ _ => ⟨0, 0, 0⟩⟩).2
      = none ∧
    (renderConvergence snapPending).pix 0 0 = ⟨9, 9, 9⟩ := by
  have h := all_nonconverged_outcome snapPending (fun _ _ => ⟨0, 0, 0⟩) (by decide)
  refine ⟨by decide, h.1, h.2.1, h.2.2.1, ?_⟩
  exact (h.2.2.2.2 0 (by decide) 0 (by decide)).1 (by decide)

/-- Claim C10: the projections do not read depth or image data at pixels
failing their gates: two snapshots of equal dimensions that agree on the
convergence map, the mask, the pose and the intrinsics, agree on depth and
grayscale at CONVERGED pixels, and agree on depth and color at CONVERGED
mask-valid pixels, produce identical uncolored and colored batches even
if they differ arbitrarily elsewhere. -/
theorem projection_noninterference (s1 s2 : Snapshot)
    (hr : s1.rows = s2.rows) (hc : s1.cols = s2.cols)
    (hconv : ∀ y < s1.rows, ∀ x < s1.cols,
      s1.convergence y x = s2.convergence y x)
    (hmask : ∀ y < s1.rows, ∀ x < s1.cols, s1.ref_mask y x = s2.ref_mask y x)
    (hT : s1.T_world_ref = s2.T_world_ref)
    (hfx : s1.fx = s2.fx) (hfy : s1.fy = s2.fy)
    (hcx : s1.cx = s2.cx) (hcy : s1.cy = s2.cy)
    (hgI : ∀ y < s1.rows, ∀ x < s1.cols, s1.convergence y x = CONVERGED →
      s1.depth y x = s2.depth y x ∧ s1.ref_img y x = s2.ref_img y x)
    (hgC : ∀ y < s1.rows, ∀ x < s1.cols, s1.convergence y x = CONVERGED →
      s1.ref_mask y x = 1 →
      s1.depth y x = s2.depth y x ∧ s1.ref_img_rgb y x = s2.ref_img_rgb y x) :
    pointCloudPoints s1 = pointCloudPoints s2 ∧
    pointCloudRGBPoints s1 = pointCloudRGBPoints s2 := by
  have hraster : rasterPixels s1.rows s1.cols = rasterPixels s2.rows s2.cols := by
    rw [hr, hc]
  have hcp : convergedPixels s1 = convergedPixels s2 := by
    rw [convergedPixels, convergedPixels, ← hraster]
    apply List.filter_congr
    intro q hq
    have hb := mem_rasterPixels.1 hq
    rw [hconv q.1 hb.1 q.2 hb.2]
  have hcmp : convergedMaskedPixels s1 = convergedMaskedPixels s2 := by
    rw [convergedMaskedPixels, convergedMaskedPixels, ← hraster]
    apply List.filter_congr
    intro q hq
    have hb := mem_rasterPixels.1 hq
    rw [hconv q.1 hb.1 q.2 hb.2, hmask q.1 hb.1 q.2 hb.2]
  constructor
  · rw [pointCloudPoints_eq, pointCloudPoints_eq, ← hcp]
    apply List.map_congr_left
    intro q hq
    simp only [convergedPixels, List.mem_filter, decide_eq_true_eq] at hq
    have hb := mem_rasterPixels.1 hq.1
    obtain ⟨hd, hg⟩ := hgI q.1 hb.1 q.2 hb.2 hq.2
    rw [mkPointType, mkPointType, pixelXYZ, pixelXYZ, pixelRay, pixelRay,
      hfx, hfy, hcx, hcy, hT, hd, hg]
  · rw [pointCloudRGBPoints_eq, pointCloudRGBPoints_eq, ← hcmp]
    apply List.map_congr_left
    intro q hq
    simp only [convergedMaskedPixels, List.mem_filter, decide_eq_true_eq] at hq
    have hb := mem_rasterPixels.1 hq.1
    obtain ⟨hd, hg⟩ := hgC q.1 hb.1 q.2 hb.2 hq.2.1 hq.2.2
    rw [mkPointTypeRGB, mkPointTypeRGB, pixelXYZ, pixelXYZ, pixelRay, pixelRay,
      hfx, hfy, hcx, hcy, hT, hd, hg]

/-- One-pixel snapshot whose pixel fails both gates (pending state). -/
def snapGatedA : Snapshot :=
  { snapOneConverged with convergence := (fun _ _ => 0), ref_img := (fun _ _ => 3) }

/-- Variant of snapGatedA with different depth and image data at the
gated-out pixel. -/
def snapGatedB : Snapshot :=
  { snapGatedA with
    depth := fun _ _ => 99
    ref_img := fun _ _ => 4
    ref_img_rgb := fun _ _ => ⟨9, 9, 9⟩ }

/-- Witness for claim C10: two snapshots differing only in depth and
image values at a pixel that fails the gate produce identical batches. -/
theorem projection_noninterference_witness :
    snapGatedA.ref_img 0 0 ≠ snapGatedB.ref_img 0 0 ∧
    snapGatedA.ref_img_rgb 0 0 ≠ snapGatedB.ref_img_rgb 0 0 ∧
    pointCloudPoints snapGatedA = pointCloudPoints snapGatedB ∧
    pointCloudRGBPoints snapGatedA = pointCloudRGBPoints snapGatedB := by
  have h := projection_noninterference snapGatedA snapGatedB rfl rfl
    (by decide) (by decide) rfl rfl rfl rfl rfl (by decide) (by decide)
  exact ⟨by decide, by decide, h.1, h.2⟩

end Remode
